import Mathlib

/-!
Shallow embedding of the DNS-record reconciliation engine of
`records/models.py` (class `Record`) together with the pieces of the
Python standard library it relies on (`str.split`, `str.join`, `int()`).

Pure codec helpers (`split_name`, `join_name`, `split_data`, `join_data`,
`parse_record`) are embedded as pure functions.  The stateful classmethods
(`list_records`, `create_record`, `retrieve_record`, `update_record`,
`delete_record`) are embedded as explicit state-passing functions
`... → St → Except Err α × St`: the returned state is the state at normal
return or at the moment an exception is raised (Python exceptions do not
roll back earlier side effects).  External DNS providers are modelled as
oracles: each operation receives the provider's answer for the single call
it makes, `none` meaning "no provider configured" and `some (.error ())`
meaning the provider call raised `DnsRecordProviderError`.
-/

namespace Subshorts

/-- Python exceptions that can cross the functions' boundaries.
`provider` stands for `DnsRecordProviderError` (never escapes the
reconciliation layer — that is one of the theorems below). -/
inductive Err where
  | badRequest        -- DnsRecordBadRequestError
  | notFound          -- DnsRecordNotFoundError
  | provider          -- DnsRecordProviderError
  | valueError        -- ValueError, e.g. int() on a non-numeric string
  | indexError        -- IndexError, e.g. values[-1] on an empty list
  | attributeError    -- AttributeError, e.g. None.endswith(...)
  | multipleReturned  -- django MultipleObjectsReturned from .get()
deriving Repr, DecidableEq

/-! ### Python string primitives -/

/-- Python `s.startswith(pre)`. -/
def pyStartsWith (s pre : String) : Bool := pre.data.isPrefixOf s.data

/-- Python `s.endswith(suf)`. -/
def pyEndsWith (s suf : String) : Bool := suf.data.isSuffixOf s.data

/-- Python `s.strip()` (no argument): removes surrounding whitespace. -/
def pyStrip (s : String) : String :=
  String.mk (((s.data.dropWhile (·.isWhitespace)).reverse.dropWhile
    (·.isWhitespace)).reverse)

/-- Auxiliary for `pySplitDot`: accumulates the current chunk (reversed). -/
def splitDotAux : List Char → List Char → List String
  | [], acc => [String.mk acc.reverse]
  | c :: cs, acc =>
    if c = '.' then String.mk acc.reverse :: splitDotAux cs []
    else splitDotAux cs (c :: acc)

/-- Python `s.split('.')`: keeps empty chunks, `"".split('.') == [""]`. -/
def pySplitDot (s : String) : List String := splitDotAux s.data []

/-- Auxiliary for `pySplitWs`. -/
def pySplitWsAux : List Char → List Char → List String
  | [], acc => if acc.isEmpty then [] else [String.mk acc.reverse]
  | c :: cs, acc =>
    if c.isWhitespace then
      if acc.isEmpty then pySplitWsAux cs []
      else String.mk acc.reverse :: pySplitWsAux cs []
    else pySplitWsAux cs (c :: acc)

/-- Python `s.split()` (no separator): splits on whitespace runs and never
returns empty chunks. -/
def pySplitWs (s : String) : List String := pySplitWsAux s.data []

/-- Python `'.'.join(parts)`. -/
def joinDot : List String → String
  | [] => ""
  | [x] => x
  | x :: xs => x ++ "." ++ joinDot xs

/-- Python `' '.join(parts)`. -/
def joinSpace : List String → String
  | [] => ""
  | [x] => x
  | x :: xs => x ++ " " ++ joinSpace xs

/-- Digits of a decimal literal to a number. -/
def digitsToNat (l : List Char) : Nat :=
  l.foldl (fun a c => a * 10 + (c.toNat - 48)) 0

/-- Python `int(s)`: strips surrounding whitespace, allows one sign,
then decimal digits; anything else raises `ValueError` (`none` here). -/
def pyInt (s : String) : Option Int :=
  let t := pyStrip s
  let signed : Int × List Char :=
    match t.data with
    | '-' :: rest => (-1, rest)
    | '+' :: rest => (1, rest)
    | l => (1, l)
  if signed.2 ≠ [] ∧ signed.2.all (·.isDigit) then
    some (signed.1 * (digitsToNat signed.2 : Int))
  else none

/-! ### The record codec (`Record.split_name` … `Record.parse_record`) -/

/-- `Record.split_name`: pops up to two leading `_`-labels as service and
protocol (`names.pop(0) if len(names) >= 3 and names[0].startswith('_')`,
then the same with `>= 2`), rejoins the rest with `.`. -/
def split_name (full_name : String) : Option String × Option String × String :=
  let names := pySplitDot full_name
  let sn : Option String × List String :=
    if 3 ≤ names.length ∧ pyStartsWith (names.headD "") "_" then
      (some (names.headD ""), names.tail)
    else (none, names)
  let pn : Option String × List String :=
    if 2 ≤ sn.2.length ∧ pyStartsWith (sn.2.headD "") "_" then
      (some (sn.2.headD ""), sn.2.tail)
    else (none, sn.2)
  (sn.1, pn.1, joinDot pn.2)

/-- `Record.join_name`: prefixes service/protocol with `_` when not already
prefixed and `'.'`-joins the non-`None` parts. -/
def join_name (service protocol : Option String) (name : String) : String :=
  let service := service.map (fun s => if pyStartsWith s "_" then s else "_" ++ s)
  let protocol := protocol.map (fun p => if pyStartsWith p "_" then p else "_" ++ p)
  joinDot (service.toList ++ protocol.toList ++ [name])

/-- `Record.split_data`:
`values = data.split()`; `priority = int(values[0]) if len(values) > 1`;
`weight = int(values[1]) if len(values) == 4`;
`port = int(values[2]) if len(values) == 4`; `target = values[-1]`.
`int()` may raise `ValueError`; `values[-1]` raises `IndexError` on an
empty split. -/
def split_data (data : String) :
    Except Err (Option Int × Option Int × Option Int × String) := do
  let values := pySplitWs data
  let priority : Option Int ←
    if values.length > 1 then
      match pyInt (values.headD "") with
      | some n => pure (some n)
      | none => throw .valueError
    else pure none
  let weight : Option Int ←
    if values.length == 4 then
      match pyInt (values.getD 1 "") with
      | some n => pure (some n)
      | none => throw .valueError
    else pure none
  let port : Option Int ←
    if values.length == 4 then
      match pyInt (values.getD 2 "") with
      | some n => pure (some n)
      | none => throw .valueError
    else pure none
  match values.getLast? with
  | some target => pure (priority, weight, port, target)
  | none => throw .indexError

/-- `Record.join_data`: `' '.join(map(str, filter(not-None, [...])))`. -/
def join_data (priority weight port : Option Int) (target : String) : String :=
  joinSpace ((priority.toList.map toString) ++ (weight.toList.map toString) ++
    (port.toList.map toString) ++ [target])

/-- The `dict` built by `Record.parse_record`. -/
structure Parsed where
  name : String
  ttl : Int
  type : String
  service : Option String
  protocol : Option String
  priority : Option Int
  weight : Option Int
  port : Option Int
  target : String
deriving Repr, DecidableEq

/-- `Record.parse_record`: `r = raw_record.split()`; name parts from
`split_name(r[0])`; data parts from `split_data(r[-1])` (note: only the
last whitespace token); `ttl = int(r[1]) if r[1] != 'IN' else int(r[2])`;
`type = r[3]`. -/
def parse_record (raw_record : String) : Except Err Parsed := do
  let r := pySplitWs raw_record
  let r0 ← match r.head? with
    | some x => pure x
    | none => throw .indexError
  let spn := split_name r0
  let rLast ← match r.getLast? with
    | some x => pure x
    | none => throw .indexError
  let (priority, weight, port, target) ← split_data rLast
  let r1 ← match r.get? 1 with
    | some x => pure x
    | none => throw .indexError
  let ttl ←
    if r1 ≠ "IN" then
      match pyInt r1 with
      | some n => pure n
      | none => throw .valueError
    else
      match r.get? 2 with
      | some x =>
        match pyInt x with
        | some n => pure n
        | none => throw .valueError
      | none => throw .indexError
  let rtype ← match r.get? 3 with
    | some x => pure x
    | none => throw .indexError
  pure { name := spn.2.2, ttl := ttl, type := rtype, service := spn.1, protocol := spn.2.1, priority := priority, weight := weight, port := port, target := target }

/-! ### Data model and state -/

/-- A row of the `Record` table.  `domain` stands for the foreign key to
the owning `Domain` (identified by its name).  Field defaults mirror the
Django model: `ttl` defaults to 3600, nullable columns to `None`, and
character columns without an explicit default to the empty string. -/
structure RecordRow where
  id : Nat
  provider_id : Option String := none
  subdomain_name : String
  domain : String
  name : String := ""
  ttl : Int := 3600
  type : String := ""
  service : Option String := none
  protocol : Option String := none
  priority : Option Int := none
  weight : Option Int := none
  port : Option Int := none
  target : String := ""
deriving Repr, DecidableEq

/-- The `Subdomain` rows referenced by records (external entity). -/
structure Subdomain where
  name : String
  domain : String
deriving Repr, DecidableEq

/-- A canonical provider record `dict` as produced by a provider backend
(cf. `DigitalOceanRecordProvider.from_digitalocean_record`): the ten keys
are always present, with `provider_id` a string. -/
structure PRec where
  provider_id : String
  name : String
  ttl : Int
  type : String
  service : Option String
  protocol : Option String
  priority : Option Int
  weight : Option Int
  port : Option Int
  target : String
deriving Repr, DecidableEq

/-- The keyword arguments of `create_record` / `update_record`: the outer
`Option` records whether the key is supplied at all (Python `k in kwargs`);
for nullable columns the inner `Option` is the supplied value. -/
structure Kwargs where
  name : Option String := none
  ttl : Option Int := none
  type : Option String := none
  service : Option (Option String) := none
  protocol : Option (Option String) := none
  priority : Option (Option Int) := none
  weight : Option (Option Int) := none
  port : Option (Option Int) := none
  target : Option String := none
deriving Repr, DecidableEq

/-- Association-list lookup (used for both cache key families). -/
def aGet {κ β : Type} [BEq κ] (m : List (κ × β)) (k : κ) : Option β :=
  (m.find? (fun p => p.1 == k)).map (·.2)

/-- Association-list insert/replace (`cache.set`). -/
def aSet {κ β : Type} [BEq κ] (m : List (κ × β)) (k : κ) (v : β) :
    List (κ × β) :=
  (k, v) :: m.filter (fun p => !(p.1 == k))

/-- Association-list removal (`cache.delete`). -/
def aDel {κ β : Type} [BEq κ] (m : List (κ × β)) (k : κ) : List (κ × β) :=
  m.filter (fun p => !(p.1 == k))

/-- Modelled from the spec: `Subdomain.__str__` (used to build the cache
key `'records:' + str(subdomain)`) is not among the sources; the spec
(§4.4) describes two disjoint cache key families, `records:<subdomainKey>`
keyed by the subdomain and `records:<id>` keyed by the numeric record id,
so the subdomain key is modelled as the subdomain's identifying pair and
the two families are kept as two separate maps in `St`. -/
def subKey (sub : Subdomain) : String × String := (sub.name, sub.domain)

/-- The shared mutable state: the `Record` table (with the auto-increment
counter) and the two cache key families.  Cache values carry the timeout
passed to `cache.set`. -/
structure St where
  rows : List RecordRow := []
  nextId : Nat := 1
  subCache : List ((String × String) × (List RecordRow × Int)) := []
  recCache : List (Nat × (RecordRow × Int)) := []
deriving Repr, DecidableEq

/-! ### Reconciliation helpers -/

/-- `Record.update_by_provider_record`: overwrite each field present in
the provider dict (the code only assigns and saves when something
differs, which has the same net effect on the store). -/
def update_by_provider_record (r : RecordRow) (pr : PRec) : RecordRow :=
  { r with provider_id := some pr.provider_id, name := pr.name, ttl := pr.ttl, type := pr.type, service := pr.service, protocol := pr.protocol, priority := pr.priority, weight := pr.weight, port := pr.port, target := pr.target }

/-- Applying `update_or_create`'s `defaults` dict to an existing row: the
canonical fields plus the `subdomain_name`/`domain` keys that
`list_records` adds before upserting. -/
def applyDefaults (pr : PRec) (sub : Subdomain) (r : RecordRow) : RecordRow :=
  { update_by_provider_record r pr with subdomain_name := sub.name, domain := sub.domain }

/-- The row created by `update_or_create(provider_id=..., defaults=...)`
when no row matches the provider id. -/
def newRowFromPRec (pr : PRec) (sub : Subdomain) (id : Nat) : RecordRow :=
  { id := id, provider_id := some pr.provider_id, subdomain_name := sub.name, domain := sub.domain, name := pr.name, ttl := pr.ttl, type := pr.type, service := pr.service, protocol := pr.protocol, priority := pr.priority, weight := pr.weight, port := pr.port, target := pr.target }

/-- `record.provider_id not in provider_record_id_set`, negated: a `None`
provider id is never a member. -/
def pidIn (pid : Option String) (pids : List String) : Bool :=
  match pid with
  | none => false
  | some p => pids.contains p

/-- The dict comprehension
`{provider_id: x for provider_id, x in ...filter(subdomain_name=...)}`
resolved to the id of the row it maps each provider id to (Python dicts
keep the last binding). -/
def recDict (rows : List RecordRow) (sub : Subdomain) (pid : String) :
    Option Nat :=
  (((rows.filter (fun r => r.subdomain_name == sub.name)).reverse).find?
    (fun r => r.provider_id == some pid)).map (·.id)

/-- The ordering `order_by('type', 'name', '-id')`. -/
def recordLe (a b : RecordRow) : Bool :=
  if a.type = b.type then
    if a.name = b.name then b.id ≤ a.id
    else decide (a.name < b.name)
  else decide (a.type < b.type)

/-- Insertion step of `sortRecords`. -/
def insertLe (x : RecordRow) : List RecordRow → List RecordRow
  | [] => [x]
  | y :: ys => if recordLe x y then x :: y :: ys else y :: insertLe x ys

/-- Insertion sort realizing `order_by('type', 'name', '-id')`. -/
def sortRecords : List RecordRow → List RecordRow
  | [] => []
  | x :: xs => insertLe x (sortRecords xs)

/-! ### The five record operations -/

/-- The per-provider-record body of `list_records`' reconciliation loop,
iterated over the provider's list.  `dict` is the provider-id dictionary
built once before the loop (its entries point at rows via their stable
primary key; every mutation of a dict-held object is paired with a save,
so dereferencing the current row by id is equivalent).  The second branch
is `update_or_create(provider_id=..., defaults=...)`; two rows matching
one provider id make Django's `get` raise `MultipleObjectsReturned`,
which is not a `DnsRecordProviderError` and therefore propagates. -/
def reconcile (sub : Subdomain) (dict : String → Option Nat) :
    List PRec → St → Except Err Unit × St
  | [], st => (.ok (), st)
  | pr :: rest, st =>
    match dict pr.provider_id with
    | some rid =>
      reconcile sub dict rest
        { st with rows := st.rows.map (fun r => if r.id == rid then update_by_provider_record r pr else r) }
    | none =>
      match st.rows.filter (fun r => r.provider_id == some pr.provider_id) with
      | [] =>
        reconcile sub dict rest
          { st with rows := st.rows ++ [newRowFromPRec pr sub st.nextId], nextId := st.nextId + 1 }
      | [r] =>
        reconcile sub dict rest
          { st with rows := st.rows.map (fun x => if x.id == r.id then applyDefaults pr sub x else x) }
      | _ => (.error .multipleReturned, st)

/-- `Record.list_records(provider, subdomain)`.
The provider oracle is the outcome of `provider.list_records(...)`:
`none` = no provider configured, `some (.error ())` = the call raised
`DnsRecordProviderError` (caught and logged), `some (.ok prs)` = the
provider's record dicts.  On a cache miss with a successful provider
call, rows of this subdomain whose provider id is not in the returned
set are deleted (the loop over the evaluated queryset amounts to one
filter), then each provider record is merged. -/
def list_records (provider : Option (Except Unit (List PRec)))
    (subdomain : Option Subdomain) (st : St) :
    Except Err (List RecordRow) × St :=
  match subdomain with
  | none => (.ok [], st)
  | some sub =>
    match aGet st.subCache (subKey sub) with
    | some v => (.ok v.1, st)
    | none =>
      let afterProvider : Except Err Unit × St :=
        match provider with
        | some (.ok prs) =>
          let pids := prs.map (·.provider_id)
          let st1 := { st with rows := st.rows.filter (fun r => !(r.subdomain_name == sub.name) || pidIn r.provider_id pids) }
          reconcile sub (recDict st1.rows sub) prs st1
        | _ => (.ok (), st)
      match afterProvider with
      | (.error e, st2) => (.error e, st2)
      | (.ok _, st2) =>
        let records := sortRecords (st2.rows.filter
          (fun r => r.subdomain_name == sub.name))
        (.ok records,
         { st2 with subCache := aSet st2.subCache (subKey sub) (records, 3600), recCache := records.foldl (fun c r => aSet c r.id (r, r.ttl)) st2.recCache })

/-- The trailing-dot normalization shared by `create_record` and
`update_record`:
`if kwargs.get('type') in ('NS','CNAME','MX','SRV') and not
kwargs.get('target').endswith('.'): kwargs['target'] += '.'`.
When the type is one of the four and no target is supplied,
`kwargs.get('target')` is `None` and `.endswith` raises
`AttributeError`. -/
def normalize_target (kwargs : Kwargs) : Except Err Kwargs :=
  match kwargs.type with
  | some t =>
    if t ∈ ["NS", "CNAME", "MX", "SRV"] then
      match kwargs.target with
      | none => .error .attributeError
      | some tg =>
        if pyEndsWith tg "." then .ok kwargs
        else .ok { kwargs with target := some (tg ++ ".") }
    else .ok kwargs
  | none => .ok kwargs

/-- `cls(subdomain_name=..., domain=..., **kwargs)`: a fresh unsaved row
with the model's field defaults for keys not supplied. -/
def instantiate (sub : Subdomain) (kw : Kwargs) (id : Nat) : RecordRow :=
  { id := id, provider_id := none, subdomain_name := sub.name, domain := sub.domain, name := kw.name.getD "", ttl := kw.ttl.getD 3600, type := kw.type.getD "", service := kw.service.getD none, protocol := kw.protocol.getD none, priority := kw.priority.getD none, weight := kw.weight.getD none, port := kw.port.getD none, target := kw.target.getD "" }

/-- `record.provider_id = provider_record.get('provider_id')` when the
provider call succeeded; on `DnsRecordProviderError` (logged) or without
a provider the instantiated record keeps `provider_id = None`. -/
def attach_provider_id (provider : Option (Except Unit (Option String)))
    (record : RecordRow) : RecordRow :=
  match provider with
  | some (.ok pid) => { record with provider_id := pid }
  | _ => record

/-- `Record.create_record(provider, subdomain, **kwargs)`.
The provider oracle is the outcome of `provider.create_record(...)`,
reduced to `provider_record.get('provider_id')` (the only part the code
uses); on `DnsRecordProviderError` the record keeps `provider_id = None`
and is still saved. -/
def create_record (provider : Option (Except Unit (Option String)))
    (sub : Subdomain) (kwargs : Kwargs) (st : St) :
    Except Err RecordRow × St :=
  if !(pyEndsWith (kwargs.name.getD "") sub.name) then
    (.error .badRequest, st)
  else match normalize_target kwargs with
  | .error e => (.error e, st)
  | .ok kwargs =>
    let record := attach_provider_id provider (instantiate sub kwargs st.nextId)
    (.ok record,
     { st with rows := st.rows ++ [record], nextId := st.nextId + 1, subCache := aDel st.subCache (subKey sub), recCache := aSet st.recCache record.id (record, record.ttl) })

/-- `Record.retrieve_record(provider, subdomain, id)`.
The provider oracle is the outcome of `provider.retrieve_record(...)`:
`some (.ok none)` means the provider reported the record gone (delete
locally and return `None`), `some (.ok (some pr))` a provider record to
merge, `some (.error ())` a caught `DnsRecordProviderError`. -/
def retrieve_record (provider : Option (Except Unit (Option PRec)))
    (sub : Subdomain) (id : Nat) (st : St) :
    Except Err (Option RecordRow) × St :=
  let fallback := (match aGet st.subCache (subKey sub) with
                   | some v => v.1
                   | none => []).find? (fun x => x.id == id)
  let cacheValue := match aGet st.recCache id with
                    | some v => some v.1
                    | none => fallback
  match cacheValue with
  | some v => (.ok (some v), st)
  | none =>
    match st.rows.find? (fun r => r.subdomain_name == sub.name && r.id == id) with
    | none => (.error .notFound, st)
    | some record =>
      match provider with
      | some (.ok none) =>
        (.ok none,
         { st with rows := st.rows.filter (fun r => !(r.id == record.id)), subCache := aDel st.subCache (subKey sub), recCache := aDel st.recCache id })
      | some (.ok (some pr)) =>
        let record := update_by_provider_record record pr
        (.ok (some record),
         { st with rows := st.rows.map (fun r => if r.id == record.id then record else r), recCache := aSet st.recCache id (record, record.ttl) })
      | _ =>
        (.ok (some record),
         { st with recCache := aSet st.recCache id (record, record.ttl) })

/-- `k in ['name', 'type', 'service', 'protocol'] and
v != getattr(record, k)` for some supplied key `k`. -/
def immutable_violation (r : RecordRow) (kw : Kwargs) : Bool :=
  (match kw.name with | some v => v != r.name | none => false) ||
  (match kw.type with | some v => v != r.type | none => false) ||
  (match kw.service with | some v => v != r.service | none => false) ||
  (match kw.protocol with | some v => v != r.protocol | none => false)

/-- `setattr(record, k, v)` for every supplied key. -/
def apply_kwargs (r : RecordRow) (kw : Kwargs) : RecordRow :=
  { r with name := kw.name.getD r.name, ttl := kw.ttl.getD r.ttl, type := kw.type.getD r.type, service := kw.service.getD r.service, protocol := kw.protocol.getD r.protocol, priority := kw.priority.getD r.priority, weight := kw.weight.getD r.weight, port := kw.port.getD r.port, target := kw.target.getD r.target }

/-- `Record.update_record(provider, subdomain, id, **kwargs)`.
The provider oracle is the outcome of `provider.update_record(...)`
(its return value is unused and a `DnsRecordProviderError` is caught, so
the oracle never influences the result — that is theorem `C1` below).
The immutable-field loop raises `DnsRecordBadRequestError` before
`record.save()`, so the store is untouched on that path; only the error
message depends on the iteration order of `kwargs`, not the outcome. -/
def update_record (provider : Option (Except Unit Unit)) (sub : Subdomain)
    (id : Nat) (kwargs : Kwargs) (st : St) : Except Err RecordRow × St :=
  if kwargs.name.isSome && !(pyEndsWith (kwargs.name.getD "") sub.name) then
    (.error .badRequest, st)
  else match normalize_target kwargs with
  | .error e => (.error e, st)
  | .ok kwargs =>
    match st.rows.find? (fun r => r.subdomain_name == sub.name && r.id == id) with
    | none => (.error .notFound, st)
    | some record =>
      if immutable_violation record kwargs then (.error .badRequest, st)
      else
        let record := apply_kwargs record kwargs
        (.ok record,
         { st with rows := st.rows.map (fun r => if r.id == record.id then record else r), subCache := aDel st.subCache (subKey sub), recCache := aSet st.recCache record.id (record, record.ttl) })

/-- `Record.delete_record(provider, subdomain, id)`.
The provider oracle is the outcome of `provider.delete_record(...)`
(return value unused, `DnsRecordProviderError` caught). -/
def delete_record (provider : Option (Except Unit Unit)) (sub : Subdomain)
    (id : Nat) (st : St) : Except Err Unit × St :=
  match st.rows.find? (fun r => r.subdomain_name == sub.name && r.id == id) with
  | none => (.error .notFound, st)
  | some record =>
    (.ok (),
     { st with rows := st.rows.filter (fun r => !(r.id == record.id)), subCache := aDel st.subCache (subKey sub), recCache := aDel st.recCache id })

deriving instance DecidableEq for Except

/-! ### Theorems about the claims -/

/-- C9: `list_records` invoked with a null/absent subdomain returns the
empty list immediately: for every provider oracle and every state the
result is `[]` and the state — store and both caches — is returned
untouched, so neither the cache, nor the provider, nor the persistent
store is consulted. -/
theorem C9_list_records_null_subdomain
    (provider : Option (Except Unit (List PRec))) (st : St) :
    list_records provider none st = (.ok [], st) := rfl

/-- C2 counterexample: `parse_record` applied to the SRV zone line does
NOT yield the claimed field values (`service="sip"`, `protocol="tcp"`,
`priority=10`, `weight=60`, `port=5060`): `split_name` keeps the `_`
prefix on the popped labels and `split_data` receives only the final
whitespace token (`target.example.com.`), so the priority, weight and
port are lost. -/
theorem C2_parse_record_claim_false :
    parse_record
        "_sip._tcp.sub.example.com 3600 IN SRV 10 60 5060 target.example.com." ≠
      Except.ok { name := "sub.example.com", ttl := 3600, type := "SRV", service := some "sip", protocol := some "tcp", priority := some 10, weight := some 60, port := some 5060, target := "target.example.com." } := by
  decide

/-- C2 amended: on the SRV zone line, `parse_record` yields
`name="sub.example.com"`, `service="_sip"`, `protocol="_tcp"`,
`ttl=3600`, `type="SRV"`, `priority=None`, `weight=None`, `port=None`,
`target="target.example.com."` — the service/protocol keep their `_`
prefix, and priority/weight/port come back unset because only the last
token of the line reaches `split_data`. -/
theorem C2_parse_record_actual :
    parse_record
        "_sip._tcp.sub.example.com 3600 IN SRV 10 60 5060 target.example.com." =
      Except.ok { name := "sub.example.com", ttl := 3600, type := "SRV", service := some "_sip", protocol := some "_tcp", priority := none, weight := none, port := none, target := "target.example.com." } := by
  decide

/-- C3 counterexample: a 3-token input does not fail: `split_data "1 2 3"`
returns a result (priority from the first token, last token as target)
instead of raising a malformed-input error. -/
theorem C3_split_data_three_tokens_no_error :
    (pySplitWs "1 2 3").length = 3 ∧
      split_data "1 2 3" = .ok (some 1, none, none, "3") := by
  decide

/-- C3 amended: `split_data` on a whitespace-split input returns target
only for 1 token, priority + target for 2 tokens, all four fields for
4 tokens, and raises `IndexError` for 0 tokens; but for any other token
count (3, or 5 and more) it does not fail: it returns the first token as
priority, no weight/port, and the last token as target (numeric
hypotheses where `int()` is applied). -/
theorem C3_split_data_shapes (data : String) :
    (∀ t, pySplitWs data = [t] → split_data data = .ok (none, none, none, t))
  ∧ (∀ a t n, pySplitWs data = [a, t] → pyInt a = some n →
      split_data data = .ok (some n, none, none, t))
  ∧ (∀ a b c t na nb nc, pySplitWs data = [a, b, c, t] → pyInt a = some na →
      pyInt b = some nb → pyInt c = some nc →
      split_data data = .ok (some na, some nb, some nc, t))
  ∧ (pySplitWs data = [] → split_data data = .error .indexError)
  ∧ (∀ n tgt, ((pySplitWs data).length = 3 ∨ 5 ≤ (pySplitWs data).length) →
      pyInt ((pySplitWs data).headD "") = some n →
      (pySplitWs data).getLast? = some tgt →
      split_data data = .ok (some n, none, none, tgt)) := by
  refine ⟨?_, ?_, ?_, ?_, ?_⟩
  · intro t h
    simp [split_data, h]
    rfl
  · intro a t n h ha
    simp [split_data, h, ha]
    rfl
  · intro a b c t na nb nc h ha hb hc
    simp [split_data, h, ha, hb, hc]
    rfl
  · intro h
    simp [split_data, h]
    rfl
  · intro n tgt hlen hh htgt
    have h1 : (pySplitWs data).length > 1 := by omega
    have h4 : ((pySplitWs data).length == 4) = false := by
      simp
      omega
    cases hv : pySplitWs data with
    | nil =>
      rw [hv] at h1
      simp at h1
    | cons x xs =>
      rw [hv] at h1 h4 hh htgt
      simp at hh h1 h4
      simp [split_data, hv, h1, h4, hh, htgt]
      rfl

/-- Witness for C3: a 2-token input gives priority + target. -/
theorem C3_split_data_shapes_witness :
    pySplitWs "7 t." = ["7", "t."] ∧ pyInt "7" = some 7 ∧
      split_data "7 t." = .ok (some 7, none, none, "t.") :=
  ⟨by decide, by decide,
    (C3_split_data_shapes "7 t.").2.1 "7" "t." 7 (by decide) (by decide)⟩

/-- C6: `create_record` with a supplied name that does not end with the
subdomain's name raises `DnsRecordBadRequestError` and returns the state
unchanged — nothing is stored locally — for every provider oracle, so no
provider call depends on it either. -/
theorem C6_create_record_bad_name
    (provider : Option (Except Unit (Option String))) (sub : Subdomain)
    (kwargs : Kwargs) (st : St)
    (h : pyEndsWith (kwargs.name.getD "") sub.name = false) :
    create_record provider sub kwargs st = (.error .badRequest, st) := by
  simp [create_record, h]

/-- Witness for C6. -/
theorem C6_create_record_bad_name_witness :
    pyEndsWith "other" "sub" = false ∧
      create_record none { name := "sub", domain := "example.com" } { name := some "other" } {} = (.error .badRequest, {}) :=
  ⟨by decide, C6_create_record_bad_name none _ _ _ (by decide)⟩

/-- C7 counterexample: the split/join round-trip fails when only the
protocol is present: joining `(None, "_tcp", "a.b")` gives `"_tcp.a.b"`,
which `split_name` reads back as service `"_tcp"` (the popped label goes
to the service slot first whenever three or more labels remain). -/
theorem C7_roundtrip_claim_false :
    split_name (join_name none (some "_tcp") "a.b") ≠
      (none, some "_tcp", "a.b") := by
  decide

/-- C1: no record operation propagates a provider failure.  With a
configured provider whose call raises `DnsRecordProviderError`, every
operation behaves exactly as the provider-less (local-only) run on the
same state: `list_records` returns the locally stored records (and can
never return an error at all), `create_record` persists the record with
`provider_id = None`, and retrieve/update/delete proceed on the local
row.  In particular the returned error component never is
`Err.provider`. -/
theorem C1_provider_error_never_propagates (sub : Subdomain) (id : Nat)
    (kwargs : Kwargs) (st : St) :
    list_records (some (.error ())) (some sub) st =
        list_records none (some sub) st
  ∧ create_record (some (.error ())) sub kwargs st =
        create_record none sub kwargs st
  ∧ retrieve_record (some (.error ())) sub id st =
        retrieve_record none sub id st
  ∧ update_record (some (.error ())) sub id kwargs st =
        update_record none sub id kwargs st
  ∧ delete_record (some (.error ())) sub id st =
        delete_record none sub id st
  ∧ (∀ e, (list_records (some (.error ())) (some sub) st).1 ≠ .error e)
  ∧ (∀ r st', create_record (some (.error ())) sub kwargs st = (.ok r, st') →
        r.provider_id = none) := by
  refine ⟨rfl, rfl, rfl, rfl, rfl, ?_, ?_⟩
  · intro e
    unfold list_records
    cases haGet : aGet st.subCache (subKey sub) <;> simp [haGet]
  · intro r st' h
    unfold create_record at h
    split at h
    · simp at h
    · split at h
      · simp at h
      · simp at h
        obtain ⟨h1, -⟩ := h
        subst h1
        rfl

/-- Witness for C1 at a concrete subdomain, id, kwargs and state. -/
theorem C1_provider_error_never_propagates_witness :
    list_records (some (.error ())) (some { name := "sub", domain := "example.com" }) {} =
        list_records none (some { name := "sub", domain := "example.com" }) {}
  ∧ create_record (some (.error ())) { name := "sub", domain := "example.com" } { name := some "www.sub" } {} =
        create_record none { name := "sub", domain := "example.com" } { name := some "www.sub" } {}
  ∧ retrieve_record (some (.error ())) { name := "sub", domain := "example.com" } 1 {} =
        retrieve_record none { name := "sub", domain := "example.com" } 1 {}
  ∧ update_record (some (.error ())) { name := "sub", domain := "example.com" } 1 { name := some "www.sub" } {} =
        update_record none { name := "sub", domain := "example.com" } 1 { name := some "www.sub" } {}
  ∧ delete_record (some (.error ())) { name := "sub", domain := "example.com" } 1 {} =
        delete_record none { name := "sub", domain := "example.com" } 1 {}
  ∧ (∀ e, (list_records (some (.error ())) (some { name := "sub", domain := "example.com" }) ({} : St)).1 ≠ .error e)
  ∧ (∀ r st', create_record (some (.error ())) { name := "sub", domain := "example.com" } { name := some "www.sub" } {} = (.ok r, st') →
        r.provider_id = none) :=
  C1_provider_error_never_propagates { name := "sub", domain := "example.com" } 1 { name := some "www.sub" } {}

/-- C10: `update_record` is atomic with respect to the store on
user-visible failure: whenever it returns `DnsRecordBadRequestError`
(name-suffix violation or immutable-field change) or
`DnsRecordNotFoundError`, the stored record set is exactly as before —
every such raise happens before `record.save()`. -/
theorem C10_update_record_atomic_on_error
    (provider : Option (Except Unit Unit)) (sub : Subdomain) (id : Nat)
    (kwargs : Kwargs) (st : St) (e : Err) (st' : St)
    (h : update_record provider sub id kwargs st = (.error e, st'))
    (he : e = .badRequest ∨ e = .notFound) :
    st'.rows = st.rows := by
  clear he
  unfold update_record at h
  split at h
  · simp at h
    rw [← h.2]
  · split at h
    · simp at h
      rw [← h.2]
    · split at h
      · simp at h
        rw [← h.2]
      · split at h
        · simp at h
          rw [← h.2]
        · simp at h

/-- Witness for C10: an attempted `type` change leaves the store as it
was. -/
theorem C10_update_record_atomic_on_error_witness :
    update_record none { name := "sub", domain := "example.com" } 1 { type := some "CNAME", target := some "x.com" } { rows := [{ id := 1, subdomain_name := "sub", domain := "example.com", name := "a.sub", type := "A", target := "1.2.3.4" }], nextId := 2 } =
      (.error .badRequest, { rows := [{ id := 1, subdomain_name := "sub", domain := "example.com", name := "a.sub", type := "A", target := "1.2.3.4" }], nextId := 2 })
  ∧ ({ rows := [{ id := 1, subdomain_name := "sub", domain := "example.com", name := "a.sub", type := "A", target := "1.2.3.4" }], nextId := 2 } : St).rows =
      ({ rows := [{ id := 1, subdomain_name := "sub", domain := "example.com", name := "a.sub", type := "A", target := "1.2.3.4" }], nextId := 2 } : St).rows :=
  ⟨by decide,
    C10_update_record_atomic_on_error none { name := "sub", domain := "example.com" } 1 { type := some "CNAME", target := some "x.com" } { rows := [{ id := 1, subdomain_name := "sub", domain := "example.com", name := "a.sub", type := "A", target := "1.2.3.4" }], nextId := 2 } .badRequest { rows := [{ id := 1, subdomain_name := "sub", domain := "example.com", name := "a.sub", type := "A", target := "1.2.3.4" }], nextId := 2 } (by decide)
      (Or.inl rfl)⟩

/-- `cache.set` followed by `cache.get` on the same key. -/
theorem aGet_aSet {κ β : Type} [BEq κ] [LawfulBEq κ] (m : List (κ × β))
    (k : κ) (v : β) : aGet (aSet m k v) k = some v := by
  simp [aGet, aSet]

/-- Attaching a provider id never touches the target field. -/
theorem attach_provider_id_target (p : Option (Except Unit (Option String)))
    (r : RecordRow) : (attach_provider_id p r).target = r.target := by
  unfold attach_provider_id
  split <;> rfl

/-- Attaching a provider id never touches the primary key. -/
theorem attach_provider_id_id (p : Option (Except Unit (Option String)))
    (r : RecordRow) : (attach_provider_id p r).id = r.id := by
  unfold attach_provider_id
  split <;> rfl

/-- Trailing-dot normalization only rewrites the target entry. -/
theorem normalize_target_fields (kw kw' : Kwargs)
    (h : normalize_target kw = .ok kw') :
    kw'.name = kw.name ∧ kw'.type = kw.type ∧ kw'.service = kw.service ∧
      kw'.protocol = kw.protocol ∧ kw'.ttl = kw.ttl := by
  unfold normalize_target at h
  split at h
  · split at h
    · split at h
      · simp at h
      · split at h <;> (simp at h; subst h; simp)
    · simp at h
      subst h
      simp
  · simp at h
    subst h
    simp

/-- Trailing-dot normalization succeeds whenever an FQDN type comes with
a target (otherwise the code raises `AttributeError`). -/
theorem normalize_target_total (kw : Kwargs)
    (h : ∀ t, kw.type = some t → t ∈ ["NS", "CNAME", "MX", "SRV"] →
      kw.target.isSome = true) :
    ∃ kw', normalize_target kw = .ok kw' := by
  unfold normalize_target
  split
  · split
    · split
      · exfalso
        simp_all
      · split <;> exact ⟨_, rfl⟩
    · exact ⟨_, rfl⟩
  · exact ⟨_, rfl⟩

/-- The immutable-field check only reads fields that normalization keeps. -/
theorem immutable_violation_normalize (r : RecordRow) (kw kw' : Kwargs)
    (h : normalize_target kw = .ok kw') :
    immutable_violation r kw' = immutable_violation r kw := by
  obtain ⟨h1, h2, h3, h4, -⟩ := normalize_target_fields kw kw' h
  unfold immutable_violation
  rw [h1, h2, h3, h4]

/-- Evaluation of `create_record` on the happy path, as one equation. -/
theorem create_record_ok (provider : Option (Except Unit (Option String)))
    (sub : Subdomain) (kwargs kw' : Kwargs) (st : St)
    (hname : pyEndsWith (kwargs.name.getD "") sub.name = true)
    (hn : normalize_target kwargs = .ok kw') :
    create_record provider sub kwargs st =
      (.ok (attach_provider_id provider (instantiate sub kw' st.nextId)),
       { st with rows := st.rows ++ [attach_provider_id provider (instantiate sub kw' st.nextId)], nextId := st.nextId + 1, subCache := aDel st.subCache (subKey sub), recCache := aSet st.recCache (attach_provider_id provider (instantiate sub kw' st.nextId)).id (attach_provider_id provider (instantiate sub kw' st.nextId), (attach_provider_id provider (instantiate sub kw' st.nextId)).ttl) }) := by
  simp [create_record, hname, hn]

/-- Evaluation of `update_record` on the happy path, as one equation. -/
theorem update_record_ok (provider : Option (Except Unit Unit))
    (sub : Subdomain) (id : Nat) (kwargs kw' : Kwargs) (st : St)
    (record : RecordRow)
    (hname : (kwargs.name.isSome &&
      !(pyEndsWith (kwargs.name.getD "") sub.name)) = false)
    (hn : normalize_target kwargs = .ok kw')
    (hfind : st.rows.find? (fun r => r.subdomain_name == sub.name && r.id == id) =
      some record)
    (hviol : immutable_violation record kw' = false) :
    update_record provider sub id kwargs st =
      (.ok (apply_kwargs record kw'),
       { st with rows := st.rows.map (fun r => if r.id == (apply_kwargs record kw').id then apply_kwargs record kw' else r), subCache := aDel st.subCache (subKey sub), recCache := aSet st.recCache (apply_kwargs record kw').id (apply_kwargs record kw', (apply_kwargs record kw').ttl) }) := by
  simp [update_record, hname, hn, hfind, hviol]

/-- C8: `create_record` appends a trailing dot to the target exactly for
the FQDN-requiring types: for a supplied type among NS/CNAME/MX/SRV and
a supplied target without trailing dot, the stored record's target is
the target plus `"."`; a target already ending in `"."`, or any other
(or no) supplied type, is stored unchanged. -/
theorem C8_create_record_trailing_dot
    (provider : Option (Except Unit (Option String))) (sub : Subdomain)
    (kwargs : Kwargs) (st : St) (tg : String)
    (hname : pyEndsWith (kwargs.name.getD "") sub.name = true)
    (htg : kwargs.target = some tg) :
    (∀ t, kwargs.type = some t → t ∈ ["NS", "CNAME", "MX", "SRV"] →
      pyEndsWith tg "." = false →
      ∃ r st', create_record provider sub kwargs st = (.ok r, st') ∧
        r.target = tg ++ "." ∧ r ∈ st'.rows) ∧
    (pyEndsWith tg "." = true →
      ∃ r st', create_record provider sub kwargs st = (.ok r, st') ∧
        r.target = tg ∧ r ∈ st'.rows) ∧
    ((∀ t, kwargs.type = some t → t ∉ ["NS", "CNAME", "MX", "SRV"]) →
      ∃ r st', create_record provider sub kwargs st = (.ok r, st') ∧
        r.target = tg ∧ r ∈ st'.rows) := by
  refine ⟨?_, ?_, ?_⟩
  · intro t ht hmem hdot
    have hn : normalize_target kwargs = .ok { kwargs with target := some (tg ++ ".") } := by
      unfold normalize_target
      rw [ht]
      simp [hmem, htg, hdot]
    refine ⟨_, _, create_record_ok provider sub kwargs _ st hname hn, ?_, ?_⟩
    · rw [attach_provider_id_target]
      simp [instantiate]
    · simp
  · intro hdot
    have hn : ∃ kw', normalize_target kwargs = .ok kw' ∧ kw'.target = some tg := by
      unfold normalize_target
      split
      · split
        · rw [htg]
          simp [hdot]
          exact htg
        · exact ⟨_, rfl, htg⟩
      · exact ⟨_, rfl, htg⟩
    obtain ⟨kw', hn, hkt⟩ := hn
    refine ⟨_, _, create_record_ok provider sub kwargs kw' st hname hn, ?_, ?_⟩
    · rw [attach_provider_id_target]
      simp [instantiate, hkt]
    · simp
  · intro hnotin
    have hn : normalize_target kwargs = .ok kwargs := by
      unfold normalize_target
      split
      · split
        · exfalso
          rename_i t ht hmem
          exact hnotin t ht hmem
        · rfl
      · rfl
    refine ⟨_, _, create_record_ok provider sub kwargs kwargs st hname hn, ?_, ?_⟩
    · rw [attach_provider_id_target]
      simp [instantiate, htg]
    · simp

/-- Witness for C8: creating an NS record with target
`"ns1.example.com"` stores `"ns1.example.com."`. -/
theorem C8_create_record_trailing_dot_witness :
    pyEndsWith "www.sub" "sub" = true ∧
    (∃ r st', create_record none { name := "sub", domain := "example.com" } { name := some "www.sub", type := some "NS", target := some "ns1.example.com" } {} = (.ok r, st') ∧
      r.target = "ns1.example.com" ++ "." ∧ r ∈ st'.rows) :=
  ⟨by decide,
    (C8_create_record_trailing_dot none { name := "sub", domain := "example.com" } { name := some "www.sub", type := some "NS", target := some "ns1.example.com" } {} "ns1.example.com" (by decide) rfl).1
      "NS" rfl (by decide) (by decide)⟩

/-- `find?` with the `subdomain_name`/`pk` predicate pins the row's id. -/
theorem find_row_id (st : St) (sub : Subdomain) (id : Nat) (record : RecordRow)
    (h : st.rows.find? (fun r => r.subdomain_name == sub.name && r.id == id) =
      some record) : record.id = id := by
  have hp := List.find?_some h
  simp at hp
  exact hp.2

/-- C5 counterexample: supplying only the immutable field `type` with its
unchanged stored value (an FQDN type, here `NS`) does not succeed: the
trailing-dot normalization evaluates `None.endswith('.')` because no
target was supplied and the call dies with an `AttributeError` before the
record is even loaded. -/
theorem C5_update_unchanged_type_crashes :
    update_record none { name := "sub", domain := "example.com" } 1 { type := some "NS" } { rows := [{ id := 1, subdomain_name := "sub", domain := "example.com", name := "a.sub", type := "NS", target := "h." }], nextId := 2 } =
      (.error .attributeError, { rows := [{ id := 1, subdomain_name := "sub", domain := "example.com", name := "a.sub", type := "NS", target := "h." }], nextId := 2 }) := by
  decide

/-- C5 amended: for every existing record and update call in which any
supplied FQDN type (NS/CNAME/MX/SRV) comes together with a target
(otherwise the call crashes with `AttributeError`, see the
counterexample): if a supplied field among name/type/service/protocol
differs from the stored value the call fails with
`DnsRecordBadRequestError` and the state is unchanged; if no supplied
immutable field differs (and the record's name passes the re-validated
suffix rule when supplied), the update succeeds, the updated row is
persisted, and the record's own cache key is refreshed with timeout
equal to the record's (new) ttl. -/
theorem C5_update_record_immutable_fields
    (provider : Option (Except Unit Unit)) (sub : Subdomain) (id : Nat)
    (kwargs : Kwargs) (st : St) (record : RecordRow)
    (hfind : st.rows.find? (fun r => r.subdomain_name == sub.name && r.id == id) =
      some record)
    (htarget : ∀ t, kwargs.type = some t → t ∈ ["NS", "CNAME", "MX", "SRV"] →
      kwargs.target.isSome = true) :
    (immutable_violation record kwargs = true →
      update_record provider sub id kwargs st = (.error .badRequest, st)) ∧
    (immutable_violation record kwargs = false →
      (∀ n, kwargs.name = some n → pyEndsWith n sub.name = true) →
      ∃ kw' st', normalize_target kwargs = .ok kw' ∧
        update_record provider sub id kwargs st =
          (.ok (apply_kwargs record kw'), st') ∧
        apply_kwargs record kw' ∈ st'.rows ∧
        aGet st'.recCache id =
          some (apply_kwargs record kw', (apply_kwargs record kw').ttl)) := by
  obtain ⟨kw', hn⟩ := normalize_target_total kwargs htarget
  constructor
  · intro hviol
    by_cases hnm : (kwargs.name.isSome &&
        !(pyEndsWith (kwargs.name.getD "") sub.name)) = true
    · simp only [update_record, hnm]
      simp
    · have hnm' : (kwargs.name.isSome &&
          !(pyEndsWith (kwargs.name.getD "") sub.name)) = false := by
        simpa using hnm
      have hviol' : immutable_violation record kw' = true := by
        rw [immutable_violation_normalize record kwargs kw' hn]
        exact hviol
      simp [update_record, hnm', hn, hfind, hviol']
  · intro hviol hnm
    have hnm' : (kwargs.name.isSome &&
        !(pyEndsWith (kwargs.name.getD "") sub.name)) = false := by
      cases hkn : kwargs.name with
      | none => simp [hkn]
      | some n => simp [hkn, hnm n hkn]
    have hviol' : immutable_violation record kw' = false := by
      rw [immutable_violation_normalize record kwargs kw' hn]
      exact hviol
    have heq := update_record_ok provider sub id kwargs kw' st record hnm' hn
      hfind hviol'
    refine ⟨kw', _, hn, heq, ?_, ?_⟩
    · have hmem : record ∈ st.rows := List.mem_of_find?_eq_some hfind
      refine List.mem_map.mpr ⟨record, hmem, ?_⟩
      simp [apply_kwargs]
    · have hid : (apply_kwargs record kw').id = id := by
        have := find_row_id st sub id record hfind
        simpa [apply_kwargs] using this
      rw [← hid]
      exact aGet_aSet _ _ _

/-- Witness for C5: updating only `ttl` on an existing record succeeds
and refreshes the record's cache entry with the new ttl as timeout. -/
theorem C5_update_record_immutable_fields_witness :
    (({ rows := [{ id := 1, subdomain_name := "sub", domain := "example.com", name := "a.sub", type := "A", target := "1.2.3.4" }], nextId := 2 } : St).rows.find? (fun r => r.subdomain_name == "sub" && r.id == 1) =
      some { id := 1, subdomain_name := "sub", domain := "example.com", name := "a.sub", type := "A", target := "1.2.3.4" }) ∧
    (immutable_violation { id := 1, subdomain_name := "sub", domain := "example.com", name := "a.sub", type := "A", target := "1.2.3.4" } { ttl := some 60 } = false →
      (∀ n, ({ ttl := some 60 } : Kwargs).name = some n → pyEndsWith n "sub" = true) →
      ∃ kw' st', normalize_target { ttl := some 60 } = .ok kw' ∧
        update_record none { name := "sub", domain := "example.com" } 1 { ttl := some 60 } { rows := [{ id := 1, subdomain_name := "sub", domain := "example.com", name := "a.sub", type := "A", target := "1.2.3.4" }], nextId := 2 } =
          (.ok (apply_kwargs { id := 1, subdomain_name := "sub", domain := "example.com", name := "a.sub", type := "A", target := "1.2.3.4" } kw'), st') ∧
        apply_kwargs { id := 1, subdomain_name := "sub", domain := "example.com", name := "a.sub", type := "A", target := "1.2.3.4" } kw' ∈ st'.rows ∧
        aGet st'.recCache 1 =
          some (apply_kwargs { id := 1, subdomain_name := "sub", domain := "example.com", name := "a.sub", type := "A", target := "1.2.3.4" } kw', (apply_kwargs { id := 1, subdomain_name := "sub", domain := "example.com", name := "a.sub", type := "A", target := "1.2.3.4" } kw').ttl)) :=
  ⟨by decide,
    (C5_update_record_immutable_fields none { name := "sub", domain := "example.com" } 1 { ttl := some 60 } { rows := [{ id := 1, subdomain_name := "sub", domain := "example.com", name := "a.sub", type := "A", target := "1.2.3.4" }], nextId := 2 } { id := 1, subdomain_name := "sub", domain := "example.com", name := "a.sub", type := "A", target := "1.2.3.4" } (by decide) (by simp)).2⟩

/-- The reconciliation loop never resurrects a deleted row id: ids
already present are preserved by its update branches and freshly created
rows take ids at or above the auto-increment counter. -/
theorem reconcile_keeps_id_absent (sub : Subdomain) (dict : String → Option Nat)
    (prs : List PRec) (st : St) (rid : Nat)
    (hlt : rid < st.nextId) (hout : ∀ x ∈ st.rows, x.id ≠ rid) :
    rid < (reconcile sub dict prs st).2.nextId ∧
      ∀ x ∈ (reconcile sub dict prs st).2.rows, x.id ≠ rid := by
  induction prs generalizing st with
  | nil => exact ⟨hlt, hout⟩
  | cons pr rest ih =>
    unfold reconcile
    cases hd : dict pr.provider_id with
    | some ridx =>
      apply ih
      · simpa using hlt
      · intro x hx
        simp at hx
        obtain ⟨y, hy, hxy⟩ := hx
        subst hxy
        split
        · simpa [update_by_provider_record] using hout y hy
        · exact hout y hy
    | none =>
      cases hm : st.rows.filter (fun r => r.provider_id == some pr.provider_id) with
      | nil =>
        apply ih
        · simp
          omega
        · intro x hx
          simp at hx
          rcases hx with hx | hx
          · exact hout x hx
          · subst hx
            simp [newRowFromPRec]
            omega
      | cons r rs =>
        cases rs with
        | nil =>
          apply ih
          · simpa using hlt
          · intro x hx
            simp at hx
            obtain ⟨y, hy, hxy⟩ := hx
            subst hxy
            split
            · simpa [applyDefaults, update_by_provider_record] using hout y hy
            · exact hout y hy
        | cons r2 rs2 =>
          exact ⟨hlt, hout⟩

/-- C4: on a cache miss with a successful provider list call, every
locally stored record of the subdomain whose provider id is not among
the returned provider ids is deleted: no row with its id survives in the
store `list_records` leaves behind (under the store invariants that row
ids are unique and below the auto-increment counter).  With `prs = []`
this specializes to: a provider returning zero records wipes all local
records of the subdomain. -/
theorem C4_list_records_provider_authoritative (sub : Subdomain)
    (prs : List PRec) (st : St)
    (hmiss : aGet st.subCache (subKey sub) = none)
    (hids : ∀ x ∈ st.rows, x.id < st.nextId)
    (hnodup : (st.rows.map (fun x => x.id)).Nodup)
    (r : RecordRow) (hr : r ∈ st.rows) (hsub : r.subdomain_name = sub.name)
    (hgone : pidIn r.provider_id (prs.map (fun x => x.provider_id)) = false) :
    ∀ x ∈ (list_records (some (.ok prs)) (some sub) st).2.rows,
      x.id ≠ r.id := by
  have hout1 : ∀ x ∈ st.rows.filter (fun x =>
      !(x.subdomain_name == sub.name) || pidIn x.provider_id (prs.map (fun x => x.provider_id))),
      x.id ≠ r.id := by
    intro x hx hxid
    have hmem := List.mem_of_mem_filter hx
    have hpred := List.of_mem_filter hx
    have hxr : x = r := List.inj_on_of_nodup_map hnodup hmem hr hxid
    subst hxr
    rw [hsub] at hpred
    simp [hgone] at hpred
  intro x hx
  simp only [list_records, hmiss] at hx
  have hrec := reconcile_keeps_id_absent sub
    (recDict (st.rows.filter (fun x =>
      !(x.subdomain_name == sub.name) || pidIn x.provider_id (prs.map (fun x => x.provider_id)))) sub)
    prs
    { st with rows := st.rows.filter (fun x =>
        !(x.subdomain_name == sub.name) || pidIn x.provider_id (prs.map (fun x => x.provider_id))) }
    r.id (hids r hr) hout1
  revert hx
  cases hres : reconcile sub
    (recDict (st.rows.filter (fun x =>
      !(x.subdomain_name == sub.name) || pidIn x.provider_id (prs.map (fun x => x.provider_id)))) sub)
    prs
    { st with rows := st.rows.filter (fun x =>
        !(x.subdomain_name == sub.name) || pidIn x.provider_id (prs.map (fun x => x.provider_id))) } with
  | mk res st2 =>
    rw [hres] at hrec
    cases res with
    | error e =>
      intro hx
      exact hrec.2 x hx
    | ok u =>
      intro hx
      exact hrec.2 x hx

/-- Witness for C4: a provider returning zero records deletes a
previously stored local record (here the one with id 1, out of three). -/
theorem C4_list_records_provider_authoritative_witness :
    aGet ({ rows := [{ id := 1, provider_id := some "p1", subdomain_name := "sub", domain := "example.com", name := "sub", type := "A", target := "1.2.3.4" }, { id := 2, subdomain_name := "sub", domain := "example.com", name := "sub", type := "A", target := "1.2.3.4" }, { id := 3, provider_id := some "p3", subdomain_name := "sub", domain := "example.com", name := "sub", type := "A", target := "1.2.3.4" }], nextId := 4 } : St).subCache (subKey { name := "sub", domain := "example.com" }) = none ∧
    ∀ x ∈ (list_records (some (.ok [])) (some { name := "sub", domain := "example.com" }) { rows := [{ id := 1, provider_id := some "p1", subdomain_name := "sub", domain := "example.com", name := "sub", type := "A", target := "1.2.3.4" }, { id := 2, subdomain_name := "sub", domain := "example.com", name := "sub", type := "A", target := "1.2.3.4" }, { id := 3, provider_id := some "p3", subdomain_name := "sub", domain := "example.com", name := "sub", type := "A", target := "1.2.3.4" }], nextId := 4 }).2.rows,
      x.id ≠ 1 :=
  ⟨by decide,
    C4_list_records_provider_authoritative { name := "sub", domain := "example.com" } [] { rows := [{ id := 1, provider_id := some "p1", subdomain_name := "sub", domain := "example.com", name := "sub", type := "A", target := "1.2.3.4" }, { id := 2, subdomain_name := "sub", domain := "example.com", name := "sub", type := "A", target := "1.2.3.4" }, { id := 3, provider_id := some "p3", subdomain_name := "sub", domain := "example.com", name := "sub", type := "A", target := "1.2.3.4" }], nextId := 4 } (by decide) (by decide) (by decide) { id := 1, provider_id := some "p1", subdomain_name := "sub", domain := "example.com", name := "sub", type := "A", target := "1.2.3.4" } (by decide) rfl (by decide)⟩

/-- Appending strings concatenates their character lists. -/
theorem data_append (s t : String) : (s ++ t).data = s.data ++ t.data := rfl

/-- `String.mk` turns list concatenation into string concatenation. -/
theorem mk_append (a b : List Char) :
    String.mk a ++ String.mk b = String.mk (a ++ b) := rfl

/-- The separator string as a character list. -/
theorem dot_eq_mk : ("." : String) = String.mk ['.'] := rfl

/-- Python `split('.')` always yields at least one chunk. -/
theorem splitDotAux_ne_nil (cs acc : List Char) : splitDotAux cs acc ≠ [] := by
  induction cs generalizing acc with
  | nil => simp [splitDotAux]
  | cons c cs ih =>
    unfold splitDotAux
    split
    · simp
    · exact ih _

/-- Splitting a dot-free chunk followed by a dot pops exactly that chunk. -/
theorem splitDotAux_append_dot (xs : List Char) (rest : List Char)
    (acc : List Char) (h : '.' ∉ xs) :
    splitDotAux (xs ++ '.' :: rest) acc =
      String.mk (acc.reverse ++ xs) :: splitDotAux rest [] := by
  induction xs generalizing acc with
  | nil => simp [splitDotAux]
  | cons c cs ih =>
    have hc : c ≠ '.' := fun hc => h (hc ▸ List.mem_cons_self c cs)
    have hcs : '.' ∉ cs := fun hm => h (List.mem_cons_of_mem c hm)
    simp only [List.cons_append, splitDotAux, if_neg hc, List.append_eq]
    rw [ih _ hcs]
    simp

/-- `'.'.join` is a left inverse of `split('.')`. -/
theorem joinDot_splitDotAux (cs acc : List Char) :
    joinDot (splitDotAux cs acc) = String.mk (acc.reverse ++ cs) := by
  induction cs generalizing acc with
  | nil => simp [splitDotAux, joinDot]
  | cons c cs ih =>
    unfold splitDotAux
    split
    · rename_i hc
      subst hc
      obtain ⟨z, zs, hz⟩ := List.exists_cons_of_ne_nil (splitDotAux_ne_nil cs [])
      rw [hz]
      have hstep : joinDot (String.mk acc.reverse :: z :: zs) =
          String.mk acc.reverse ++ "." ++ joinDot (z :: zs) := rfl
      rw [hstep, ← hz, ih []]
      rw [dot_eq_mk, mk_append, mk_append]
      simp
    · rw [ih]
      simp

/-- `pySplitDot` never returns the empty list. -/
theorem pySplitDot_ne_nil (s : String) : pySplitDot s ≠ [] :=
  splitDotAux_ne_nil s.data []

/-- `'.'.join(s.split('.')) == s`. -/
theorem joinDot_pySplitDot (s : String) : joinDot (pySplitDot s) = s := by
  have := joinDot_splitDotAux s.data []
  simpa [pySplitDot] using this

/-- Splitting `label + "." + rest` pops the dot-free label. -/
theorem pySplitDot_label (s t : String) (h : '.' ∉ s.data) :
    pySplitDot (s ++ "." ++ t) = s :: pySplitDot t := by
  show splitDotAux (s ++ "." ++ t).data [] = _
  rw [data_append, data_append, show (".".data : List Char) = ['.'] from rfl,
    List.append_assoc, List.singleton_append,
    splitDotAux_append_dot s.data t.data [] h]
  simp [pySplitDot]

/-- C7 amended: the split/join round-trip
`split_name (join_name service protocol name) = (service, protocol, name)`
holds when service and protocol are both present — each a dot-free label
already prefixed with `_` — for every name; and when both are absent,
provided the name does not begin with a `_`-label followed by at least
one more label.  (When exactly one of the two is present the round-trip
fails — see the counterexample.) -/
theorem C7_split_join_roundtrip (s p n : String)
    (hs : pyStartsWith s "_" = true) (hp : pyStartsWith p "_" = true)
    (hsdot : '.' ∉ s.data) (hpdot : '.' ∉ p.data) :
    split_name (join_name (some s) (some p) n) = (some s, some p, n) ∧
    (¬(2 ≤ (pySplitDot n).length ∧
        pyStartsWith ((pySplitDot n).headD "") "_" = true) →
      split_name (join_name none none n) = (none, none, n)) := by
  constructor
  · have hj : join_name (some s) (some p) n = s ++ "." ++ (p ++ "." ++ n) := by
      simp [join_name, hs, hp, joinDot]
    rw [hj]
    have hsplit : pySplitDot (s ++ "." ++ (p ++ "." ++ n)) =
        s :: p :: pySplitDot n := by
      rw [pySplitDot_label _ _ hsdot, pySplitDot_label _ _ hpdot]
    have hlp : 1 ≤ (pySplitDot n).length :=
      List.length_pos.mpr (pySplitDot_ne_nil n)
    simp [split_name, hsplit, hs, hp, hlp, joinDot_pySplitDot]
  · intro hno
    have hj : join_name none none n = n := by simp [join_name, joinDot]
    rw [hj]
    have hc1 : ¬(3 ≤ (pySplitDot n).length ∧
        pyStartsWith ((pySplitDot n).headD "") "_" = true) := by
      rintro ⟨h3, hst⟩
      exact hno ⟨by omega, hst⟩
    simp only [split_name]
    rw [if_neg hc1]
    simp only []
    rw [if_neg hno]
    simp [joinDot_pySplitDot]

/-- Witness for C7: the round-trip at `("_sip", "_tcp", "sub.example.com")`
and, for the both-absent side, at `"sub.example.com"`. -/
theorem C7_split_join_roundtrip_witness :
    pyStartsWith "_sip" "_" = true ∧ pyStartsWith "_tcp" "_" = true ∧
    (split_name (join_name (some "_sip") (some "_tcp") "sub.example.com") =
        (some "_sip", some "_tcp", "sub.example.com") ∧
      (¬(2 ≤ (pySplitDot "sub.example.com").length ∧
          pyStartsWith ((pySplitDot "sub.example.com").headD "") "_" = true) →
        split_name (join_name none none "sub.example.com") =
          (none, none, "sub.example.com"))) :=
  ⟨by decide, by decide,
    C7_split_join_roundtrip "_sip" "_tcp" "sub.example.com" (by decide)
      (by decide) (by decide) (by decide)⟩

end Subshorts
